import Mathlib

/- Shallow embedding of the OAuth2 client logic of the homey_linkedin repository:
   the primary client in src/lib/OAuth/LinkedInOAuth2Client.ts, the REST wrapper
   in src/lib/LinkedIn/LinkedInClient.ts, app initialization in src/app.ts, and
   the draft client in src/unnamed/part_013.  Network and host effects are
   passed in explicitly as outcome values or oracle functions.  JavaScript
   truthiness of optional string values is made explicit through truthyStr. -/

/-- JavaScript truthiness of an optional string value: an absent field and the
empty string are falsy; any other string is truthy and returned unchanged. -/
def truthyStr : Option String → Option String
  | none => none
  | some s => if s = "" then none else some s

deriving instance DecidableEq for Except

/-- Token shape used by the TokenStore expiry check, per spec section 3:
issuedAt timestamp and optional expiresInSeconds. -/
structure SpecToken where
  issuedAt : Nat
  expiresInSeconds : Option Nat
deriving DecidableEq

/-- Modelled from the spec: the implementation of OAuth2Util.isTokenExpired is
not under src (only its type declaration, src/unnamed/part_002 lines 15-19, is).
Spec section 4.1: computes issuedAt + expiresInSeconds <= now + skewSeconds and
returns false (treat as valid) when expiresInSeconds is absent. -/
def isExpired (t : SpecToken) (now skewSeconds : Nat) : Bool :=
  match t.expiresInSeconds with
  | none => false
  | some e => decide (t.issuedAt + e ≤ now + skewSeconds)

/-- JWT payload claims decoded from the identity token
(interface JwtPayload in LinkedInOAuth2Client.ts). -/
structure JwtPayload where
  email : Option String
  name : Option String
  given_name : Option String
  family_name : Option String
  picture : Option String
  sub : Option String
deriving DecidableEq

/-- The OAuth2 token held by the client (interface OAuth2Token extended with
id_token in LinkedInOAuth2Client.ts). -/
structure OAuth2Token where
  access_token : String
  refresh_token : Option String
  token_type : Option String
  expires_in : Option Nat
  id_token : Option String
deriving DecidableEq

/-- The token-endpoint response body after JSON parsing (interface
LinkedInTokenResponse); access_token is optional here because the parsed JSON
object may lack the field. -/
structure ParsedTokenResponse where
  access_token : Option String
  refresh_token : Option String
  token_type : Option String
  expires_in : Option Nat
  id_token : Option String
deriving DecidableEq

/-- An HTTP response from the token endpoint as observed by getTokenByCode:
ok flag, status code, and the body text that was read. -/
structure HttpTextResponse where
  ok : Bool
  status : Nat
  text : String
deriving DecidableEq

/-- The data part of an ApiResponse: either the raw payload of the provider, or
the synthetic marker object built by onHandleResult after a token refresh
(data.refreshed = true with a please-retry message). -/
inductive RespData where
  | raw (s : String)
  | refreshedMarker
deriving DecidableEq

/-- Normalized API response handled by onHandleResult. -/
structure ApiResponse where
  ok : Bool
  status : Nat
  data : RespData
  headers : List (String × String)
deriving DecidableEq

/-- The distinguishable error conditions thrown by the client.  The source
throws generic Error values; the constructors here mirror the distinct throw
sites and the context their messages carry. -/
inductive ClientError where
  | tokenExchangeFailed (status : Nat) (body : String)
  | invalidTokenFormat (body : String)
  | missingAccessToken
  | invalidAuthorizationCode
  | emptyResponse
  | refreshFailed
  | badRequest (data : RespData)
  | rateLimited
  | authenticationExpired
  | apiError (message : String)
  | invalidArgument
deriving DecidableEq

/-- The response-handling tail of getTokenByCode (LinkedInOAuth2Client.ts lines
294-350): on a non-ok status throw with the status code and the response text;
on ok, JSON-parse the text (parseJson oracle; none models a parse exception);
a falsy access_token in the parsed body is rejected; otherwise the token entity
is built from the parsed fields. -/
def handleTokenResponse (parseJson : String → Option ParsedTokenResponse)
    (resp : HttpTextResponse) : Except ClientError OAuth2Token :=
  if resp.ok = false then
    Except.error (ClientError.tokenExchangeFailed resp.status resp.text)
  else
    match parseJson resp.text with
    | none => Except.error (ClientError.invalidTokenFormat resp.text)
    | some tr =>
      match truthyStr tr.access_token with
      | none => Except.error ClientError.missingAccessToken
      | some a =>
        Except.ok
          { access_token := a
          , refresh_token := tr.refresh_token
          , token_type := tr.token_type
          , expires_in := tr.expires_in
          , id_token := tr.id_token }

/-- A JavaScript property value as far as the code-unwrapping logic inspects it:
a string field or a numeric field. -/
inductive JsField where
  | fstr (s : String)
  | fnum (n : Int)
deriving DecidableEq

/-- The argument passed to getTokenByCode: a plain string, an object (fields in
insertion order), or a nullish value. -/
inductive CodeInput where
  | str (s : String)
  | obj (fields : List (String × JsField))
  | nullish
deriving DecidableEq

/-- Property access on the modelled object: the value of the first field with
the given key. -/
def objGet (fields : List (String × JsField)) (key : String) : Option JsField :=
  (fields.find? (fun kv => kv.1 == key)).map (fun kv => kv.2)

/-- The code.code check of getTokenByCode: a truthy string field named code. -/
def objCodeField (fields : List (String × JsField)) : Option String :=
  match objGet fields "code" with
  | some (JsField.fstr c) => if c = "" then none else some c
  | _ => none

/-- The code.url check of getTokenByCode: a truthy string field named url. -/
def objUrlField (fields : List (String × JsField)) : Option String :=
  match objGet fields "url" with
  | some (JsField.fstr u) => if u = "" then none else some u
  | _ => none

/-- The fallback loop of getTokenByCode: the first field whose value is a
string (of any content, including the empty string). -/
def firstStringField : List (String × JsField) → Option String
  | [] => none
  | (_, JsField.fstr s) :: _ => some s
  | _ :: rest => firstStringField rest

/-- JSON serialization of a field value, as JSON.stringify renders it. -/
def jsonStringifyField : JsField → String
  | JsField.fstr s => "\"" ++ s ++ "\""
  | JsField.fnum n => toString n

/-- JSON serialization of the modelled object, as JSON.stringify renders it. -/
def jsonStringifyObj (fields : List (String × JsField)) : String :=
  "\x7b" ++
    String.intercalate ","
      (fields.map (fun kv => "\"" ++ kv.1 ++ "\":" ++ jsonStringifyField kv.2)) ++
  "\x7d"

/-- The code-extraction logic of getTokenByCode (LinkedInOAuth2Client.ts lines
211-251).  urlCodeParam models the URL library: the code query parameter of the
given url string, with none covering both an unparsable URL and a missing
parameter (both make the source fall back to String(code), which is
"[object Object]" for a plain object).  A nullish input becomes the empty
string; an object with no string field at all is JSON-serialized. -/
def getCodeStr (urlCodeParam : String → Option String) : CodeInput → String
  | CodeInput.str s => s
  | CodeInput.nullish => ""
  | CodeInput.obj fields =>
    match objCodeField fields with
    | some c => c
    | none =>
      match objUrlField fields with
      | some u =>
        match urlCodeParam u with
        | some c => c
        | none => "[object Object]"
      | none =>
        match firstStringField fields with
        | some s => s
        | none => jsonStringifyObj fields

/-- The validity check of getTokenByCode (lines 254-257), applied before any
network request: the extracted string is rejected when it is empty, the text
undefined, or the text [object Object]. -/
def validateCodeStr (s : String) : Except ClientError String :=
  if s = "" ∨ s = "undefined" ∨ s = "[object Object]" then
    Except.error ClientError.invalidAuthorizationCode
  else Except.ok s

/-- getTokenByCode end to end: extract and validate the code (before any
network contact), then - only if validation passed - exchange it at the token
endpoint, whose observed response is resp. -/
def getTokenByCode (urlCodeParam : String → Option String)
    (parseJson : String → Option ParsedTokenResponse)
    (input : CodeInput) (resp : HttpTextResponse) : Except ClientError OAuth2Token :=
  match validateCodeStr (getCodeStr urlCodeParam input) with
  | Except.error e => Except.error e
  | Except.ok _ => handleTokenResponse parseJson resp

/-- onHandleResult of the primary client (LinkedInOAuth2Client.ts lines
693-753).  On a missing result it throws; on a 401 it emits refresh_token once
(refreshSucceeds models that emission) and, on success, returns a synthetic
200 response carrying the refreshed marker and the original headers - it does
not re-issue the original request; on refresh failure it throws.  A 400 or 429
throws; anything else is passed through.  The second component counts the
refresh_token emissions. -/
def onHandleResult (refreshSucceeds : Bool) (result : Option ApiResponse) :
    Except ClientError ApiResponse × Nat :=
  match result with
  | none => (Except.error ClientError.emptyResponse, 0)
  | some r =>
    if !r.ok && r.status == 401 then
      if refreshSucceeds then
        (Except.ok { ok := true, status := 200, data := RespData.refreshedMarker,
                     headers := r.headers }, 1)
      else (Except.error ClientError.refreshFailed, 1)
    else if !r.ok && r.status == 400 then
      (Except.error (ClientError.badRequest r.data), 0)
    else if !r.ok && r.status == 429 then
      (Except.error ClientError.rateLimited, 0)
    else (Except.ok r, 0)

/-- Follows the spec wording (section 4.4 step 3), for comparison with
onHandleResult: on a first-attempt 401, refresh once and retry the same
request exactly once, the caller receiving the response of the retried
request (retryResponse); a 401 on the retry surfaces
AuthenticationExpiredError. -/
def onHandle401Spec (refreshSucceeds : Bool) (retryResponse : ApiResponse)
    (result : ApiResponse) : Except ClientError ApiResponse :=
  if !result.ok && result.status == 401 then
    if refreshSucceeds then
      if retryResponse.status == 401 then Except.error ClientError.authenticationExpired
      else Except.ok retryResponse
    else Except.error ClientError.refreshFailed
  else Except.ok result

/-- Outcome of the direct profile fetch of the primary client: HTTP error
status, JSON parse failure, null body, a parsed body with optional id and
name fields, or a thrown network error carrying a message. -/
inductive ProfileApiOutcome where
  | httpError (status : Nat)
  | parseFailure
  | nullData
  | payload (id : Option String) (firstName : Option String) (lastName : Option String)
  | networkFailure (message : String)
deriving DecidableEq

/-- The profile object returned by the primary client (interface
LinkedInProfileResponse, plus the error field the api-error branch adds). -/
structure LinkedInProfileResponse where
  id : String
  localizedFirstName : String
  localizedLastName : String
  error : Option String
deriving DecidableEq

/-- getUserProfile of the primary client (LinkedInOAuth2Client.ts lines
389-490).  It never consults the identity token and never throws: a missing or
token-less state and every failure of the direct fetch produce a fallback
profile with a placeholder id.  The second component records whether the REST
request was issued. -/
def getUserProfile (token : Option OAuth2Token) (api : ProfileApiOutcome) :
    LinkedInProfileResponse × Bool :=
  match token with
  | none => (⟨"unknown-profile", "LinkedIn", "User", none⟩, false)
  | some t =>
    if t.access_token = "" then (⟨"unknown-profile", "LinkedIn", "User", none⟩, false)
    else
      match api with
      | ProfileApiOutcome.httpError status =>
        (⟨"error-" ++ toString status, "LinkedIn", "User", none⟩, true)
      | ProfileApiOutcome.parseFailure => (⟨"parse-error", "LinkedIn", "User", none⟩, true)
      | ProfileApiOutcome.nullData => (⟨"missing-id", "LinkedIn", "User", none⟩, true)
      | ProfileApiOutcome.networkFailure msg =>
        (⟨"api-error", "LinkedIn", "User", some msg⟩, true)
      | ProfileApiOutcome.payload pid fn ln =>
        match truthyStr pid with
        | none => (⟨"missing-id", "LinkedIn", "User", none⟩, true)
        | some i =>
          (⟨i, (truthyStr fn).getD "LinkedIn", (truthyStr ln).getD "User", none⟩, true)

/-- getUserId of the primary client (lines 787-796): the profile id with a
falsy-fallback; the catch branch is unreachable because getUserProfile never
throws. -/
def getUserId (token : Option OAuth2Token) (api : ProfileApiOutcome) : String :=
  let p := (getUserProfile token api).1
  if p.id = "" then "unknown-user-id" else p.id

/-- The placeholder ids the primary client getUserProfile can synthesize. -/
def placeholderId (s : String) : Prop :=
  s = "unknown-profile" ∨ s = "parse-error" ∨ s = "missing-id" ∨ s = "api-error" ∨
    ∃ n : Nat, s = "error-" ++ toString n

/-- One element of the email endpoint response: the optional handle~ and
handle objects with their optional emailAddress field (outer Option is the
presence of the object, inner Option the presence of emailAddress). -/
structure EmailElement where
  handleTilde : Option (Option String)
  handle : Option (Option String)
deriving DecidableEq

/-- Outcome of the direct email fetch of the primary client. -/
inductive EmailApiOutcome where
  | httpError (status : Nat)
  | parseFailure
  | nullData
  | payload (elements : Option (List EmailElement))
  | networkFailure
deriving DecidableEq

/-- The email the response structure yields: the emailAddress of handle~ of
the first element, or failing that of handle of the first element
(LinkedInOAuth2Client.ts lines 573-590 inspect only elements[0]). -/
def firstEmailOf : Option (List EmailElement) → Option String
  | some (e :: _) =>
    match e.handleTilde.bind truthyStr with
    | some m => some m
    | none => e.handle.bind truthyStr
  | _ => none

/-- The email the REST lookup path yields, if any. -/
def apiEmailOf : EmailApiOutcome → Option String
  | EmailApiOutcome.payload elems => firstEmailOf elems
  | _ => none

/-- The email the identity-token claim path yields, if any: a decodable
id_token whose payload carries a truthy email claim. -/
def jwtEmail (pj : String → Option JwtPayload) (t : OAuth2Token) : Option String :=
  match t.id_token with
  | none => none
  | some idt =>
    match pj idt with
    | none => none
    | some jwt => truthyStr jwt.email

/-- The REST tail of getUserEmail of the primary client (lines 525-597): a
falsy access token, any fetch failure, and a response without an extractable
address all return the hardcoded placeholder. -/
def getUserEmailViaApi (t : OAuth2Token) (api : EmailApiOutcome) : String :=
  if t.access_token = "" then "unknown@email.com"
  else
    match api with
    | EmailApiOutcome.httpError _ => "unknown@email.com"
    | EmailApiOutcome.parseFailure => "unknown@email.com"
    | EmailApiOutcome.nullData => "unknown@email.com"
    | EmailApiOutcome.networkFailure => "unknown@email.com"
    | EmailApiOutcome.payload elems =>
      match elems with
      | some (e :: _) =>
        (match e.handleTilde.bind truthyStr with
         | some m => m
         | none =>
           match e.handle.bind truthyStr with
           | some m => m
           | none => "unknown@email.com")
      | some [] => "unknown@email.com"
      | none => "unknown@email.com"

/-- getUserEmail of the primary client (LinkedInOAuth2Client.ts lines 496-598):
try the id_token claim first (pj models parseJwtToken, returning none on any
decode failure), then the REST lookup; every failure path returns the
hardcoded placeholder string instead of throwing. -/
def getUserEmail (pj : String → Option JwtPayload)
    (token : Option OAuth2Token) (api : EmailApiOutcome) : String :=
  match token with
  | none => "unknown@email.com"
  | some t =>
    match t.id_token with
    | some idt =>
      (match pj idt with
       | some jwt =>
         match truthyStr jwt.email with
         | some e => e
         | none => getUserEmailViaApi t api
       | none => getUserEmailViaApi t api)
    | none => getUserEmailViaApi t api

/-- The profile object of the draft client in part_013. -/
structure Profile13 where
  id : String
  localizedFirstName : String
  localizedLastName : String
  profilePicture : Option String
deriving DecidableEq

/-- Outcome of the REST profile request of the draft client in part_013. -/
inductive RestProfileOutcome where
  | httpFailure (status : Nat)
  | success (p : Profile13)
  | networkFailure (message : String)
deriving DecidableEq

/-- The result of the REST fallback branch of the draft getUserProfile in
part_013 lines 258-279: a non-ok status throws with the status, a transport
error is rethrown, a success returns the response data; the REST request is
issued in every case. -/
def restProfileResult : RestProfileOutcome → Except ClientError Profile13 × Bool
  | RestProfileOutcome.httpFailure s =>
    (Except.error (ClientError.apiError ("LinkedIn API error: " ++ toString s)), true)
  | RestProfileOutcome.networkFailure m => (Except.error (ClientError.apiError m), true)
  | RestProfileOutcome.success p => (Except.ok p, true)

/-- getUserProfile of the draft client (src/unnamed/part_013 lines 230-280):
when the current token carries an id_token that decodes (pj models
parseJwtToken; none models its throw, which the draft catches) to a payload
with a truthy sub claim, the profile is built from the claims and no REST call
is made; otherwise the REST fallback runs.  The second component records
whether the REST request was issued. -/
def getUserProfile13 (pj : String → Option JwtPayload)
    (token : Option OAuth2Token) (rest : RestProfileOutcome) :
    Except ClientError Profile13 × Bool :=
  match token with
  | none => restProfileResult rest
  | some t =>
    match t.id_token with
    | none => restProfileResult rest
    | some idt =>
      match pj idt with
      | none => restProfileResult rest
      | some jwt =>
        match truthyStr jwt.sub with
        | none => restProfileResult rest
        | some s =>
          (Except.ok
            ⟨s, (truthyStr jwt.given_name).getD "", (truthyStr jwt.family_name).getD "",
              truthyStr jwt.picture⟩, false)

/-- The profile the identity-claims path of the draft client yields, if any:
stated independently of getUserProfile13, for the path-selection theorem. -/
def claimsProfileOf (pj : String → Option JwtPayload)
    (token : Option OAuth2Token) : Option Profile13 :=
  match token with
  | none => none
  | some t =>
    match t.id_token with
    | none => none
    | some idt =>
      match pj idt with
      | none => none
      | some jwt =>
        match truthyStr jwt.sub with
        | none => none
        | some s =>
          some ⟨s, (truthyStr jwt.given_name).getD "", (truthyStr jwt.family_name).getD "",
            truthyStr jwt.picture⟩

/-- The share request postMessage sends to the ugcPosts endpoint. -/
structure ShareRequest where
  path : String
  author : String
  lifecycleState : String
  shareCommentaryText : String
  shareMediaCategory : String
  memberNetworkVisibility : String
deriving DecidableEq

/-- postMessage of the primary client (LinkedInOAuth2Client.ts lines 760-781):
resolves the user id via getUserId and posts the share payload; the visibility
argument is embedded verbatim with no validation, so the request is always
issued.  The returned value is the request that is sent. -/
def postMessage (token : Option OAuth2Token) (api : ProfileApiOutcome)
    (message visibility : String) : ShareRequest :=
  { path := "/ugcPosts"
  , author := "urn:li:person:" ++ getUserId token api
  , lifecycleState := "PUBLISHED"
  , shareCommentaryText := message
  , shareMediaCategory := "NONE"
  , memberNetworkVisibility := visibility }

/-- The post options of LinkedInClient.postTextUpdate (visibility optional,
defaulted to CONNECTIONS at the call site). -/
structure PostOptions where
  text : String
  visibility : Option String
deriving DecidableEq

/-- The body LinkedInClient.postTextUpdate builds (LinkedInClient.ts lines
104-145): no runtime validation of visibility, only an absent-value default. -/
def postTextUpdateBody (userId : String) (options : PostOptions) : ShareRequest :=
  { path := "/ugcPosts"
  , author := "urn:li:person:" ++ userId
  , lifecycleState := "PUBLISHED"
  , shareCommentaryText := options.text
  , shareMediaCategory := "NONE"
  , memberNetworkVisibility := options.visibility.getD "CONNECTIONS" }

/-- Follows the spec wording (section 4.5), for comparison with postMessage:
createPost rejects a visibility outside the three-valued enum with
InvalidArgumentError before any network call. -/
def createPostSpec (userId message visibility : String) :
    Except ClientError ShareRequest :=
  if visibility = "PUBLIC" ∨ visibility = "CONNECTIONS" ∨ visibility = "RESTRICTED" then
    Except.ok
      { path := "/ugcPosts"
      , author := "urn:li:person:" ++ userId
      , lifecycleState := "PUBLISHED"
      , shareCommentaryText := message
      , shareMediaCategory := "NONE"
      , memberNetworkVisibility := visibility }
  else Except.error ClientError.invalidArgument

/-- The app settings consulted at startup (client_id and client_secret keys). -/
structure AppSettings where
  client_id : Option String
  client_secret : Option String
deriving DecidableEq

/-- The static credential fields of LinkedInOAuth2Client. -/
structure CredState where
  clientId : String
  clientSecret : String
deriving DecidableEq

/-- The configuration errors thrown by the first-draft updateOAuthCredentials
in src/app.ts lines 46-81. -/
inductive ConfigError where
  | missingClientId
  | missingClientSecret
  | clientIdNotSet
  | clientSecretNotSet
deriving DecidableEq

/-- LinkedInOAuth2Client.setClientId: stores the value only when it is truthy
and not pure whitespace, otherwise stores the empty string. -/
def setClientId (st : CredState) (c : String) : CredState :=
  if c ≠ "" ∧ c.trim ≠ "" then { st with clientId := c } else { st with clientId := "" }

/-- LinkedInOAuth2Client.setClientSecret, same policy as setClientId. -/
def setClientSecret (st : CredState) (c : String) : CredState :=
  if c ≠ "" ∧ c.trim ≠ "" then { st with clientSecret := c } else { st with clientSecret := "" }

/-- updateOAuthCredentials of the first app draft (src/app.ts lines 46-81):
missing or falsy settings throw, the setters run, and the stored values are
verified, throwing again when a setter left a field empty. -/
def updateOAuthCredentials1 (s : AppSettings) (st : CredState) :
    Except ConfigError CredState :=
  match truthyStr s.client_id with
  | none => Except.error ConfigError.missingClientId
  | some cid =>
    match truthyStr s.client_secret with
    | none => Except.error ConfigError.missingClientSecret
    | some sec =>
      let st2 := setClientSecret (setClientId st cid) sec
      if st2.clientId = "" then Except.error ConfigError.clientIdNotSet
      else if st2.clientSecret = "" then Except.error ConfigError.clientSecretNotSet
      else Except.ok st2

/-- The client_secret half of the final-draft updateOAuthCredentials. -/
def updateSecret3 (throwErrors : Bool) (s : AppSettings) (st : CredState) :
    Except ConfigError CredState :=
  match truthyStr s.client_secret with
  | none =>
    if throwErrors then Except.error ConfigError.missingClientSecret else Except.ok st
  | some sec => Except.ok (setClientSecret st sec)

/-- updateOAuthCredentials of the final app draft (src/app.ts lines 343-390):
with throwErrors false a missing setting is only logged and the field is left
as it was; the trailing verification only logs, never throws. -/
def updateOAuthCredentials3 (throwErrors : Bool) (s : AppSettings) (st : CredState) :
    Except ConfigError CredState :=
  match truthyStr s.client_id with
  | none =>
    if throwErrors then Except.error ConfigError.missingClientId
    else updateSecret3 throwErrors s st
  | some cid => updateSecret3 throwErrors s (setClientId st cid)

/-- onOAuth2Init of the final app draft (src/app.ts lines 149-190): it calls
updateOAuthCredentials with throwErrors set to false and wraps everything in a
catch that logs and continues, so initialization always completes - the error
branch here is the outer catch and is in fact unreachable. -/
def onOAuth2Init (s : AppSettings) (st : CredState) : Except ConfigError CredState :=
  match updateOAuthCredentials3 false s st with
  | Except.ok st2 => Except.ok st2
  | Except.error _ => Except.ok st

/- Helper lemmas. -/

theorem truthyStr_eq_some {o : Option String} {s : String}
    (h : truthyStr o = some s) : o = some s ∧ s ≠ "" := by
  cases o with
  | none => simp [truthyStr] at h
  | some v =>
    by_cases hv : v = ""
    · simp [truthyStr, hv] at h
    · simp [truthyStr, hv] at h
      subst h
      exact ⟨rfl, hv⟩

theorem truthyStr_some_eq_none {s : String} (h : truthyStr (some s) = none) :
    s = "" := by
  by_cases hv : s = ""
  · exact hv
  · simp [truthyStr, hv] at h

theorem errorIdNeEmpty (t : String) : "error-" ++ t ≠ "" := by
  intro h
  have h0 : ("error-" ++ t).length = ("" : String).length := by rw [h]
  rw [String.length_append] at h0
  have h1 : ("error-" : String).length = 6 := by decide
  have h2 : ("" : String).length = 0 := by decide
  omega

theorem getUserProfile_id_characterization (token : Option OAuth2Token)
    (api : ProfileApiOutcome) :
    (getUserProfile token api).1.id ≠ "" ∧
      (placeholderId (getUserProfile token api).1.id ∨
        ∃ pid fn ln, api = ProfileApiOutcome.payload (some pid) fn ln ∧
          (getUserProfile token api).1.id = pid) := by
  cases token with
  | none =>
    have hval : getUserProfile none api = (⟨"unknown-profile", "LinkedIn", "User", none⟩, false) := rfl
    rw [hval]
    exact ⟨by decide, Or.inl (Or.inl rfl)⟩
  | some t =>
    by_cases he : t.access_token = ""
    · have hval : getUserProfile (some t) api =
          (⟨"unknown-profile", "LinkedIn", "User", none⟩, false) := by
        simp [getUserProfile, he]
      rw [hval]
      exact ⟨by decide, Or.inl (Or.inl rfl)⟩
    · cases api with
      | httpError s =>
        have hval : getUserProfile (some t) (ProfileApiOutcome.httpError s) =
            (⟨"error-" ++ toString s, "LinkedIn", "User", none⟩, true) := by
          simp [getUserProfile, he]
        rw [hval]
        exact ⟨errorIdNeEmpty _, Or.inl (Or.inr (Or.inr (Or.inr (Or.inr ⟨s, rfl⟩))))⟩
      | parseFailure =>
        have hval : getUserProfile (some t) ProfileApiOutcome.parseFailure =
            (⟨"parse-error", "LinkedIn", "User", none⟩, true) := by
          simp [getUserProfile, he]
        rw [hval]
        exact ⟨by decide, Or.inl (Or.inr (Or.inl rfl))⟩
      | nullData =>
        have hval : getUserProfile (some t) ProfileApiOutcome.nullData =
            (⟨"missing-id", "LinkedIn", "User", none⟩, true) := by
          simp [getUserProfile, he]
        rw [hval]
        exact ⟨by decide, Or.inl (Or.inr (Or.inr (Or.inl rfl)))⟩
      | networkFailure m =>
        have hval : getUserProfile (some t) (ProfileApiOutcome.networkFailure m) =
            (⟨"api-error", "LinkedIn", "User", some m⟩, true) := by
          simp [getUserProfile, he]
        rw [hval]
        refine ⟨?_, Or.inl (Or.inr (Or.inr (Or.inr (Or.inl rfl))))⟩
        show ("api-error" : String) ≠ ""
        decide
      | payload pid fn ln =>
        cases htr : truthyStr pid with
        | none =>
          have hval : getUserProfile (some t) (ProfileApiOutcome.payload pid fn ln) =
              (⟨"missing-id", "LinkedIn", "User", none⟩, true) := by
            simp [getUserProfile, he, htr]
          rw [hval]
          exact ⟨by decide, Or.inl (Or.inr (Or.inr (Or.inl rfl)))⟩
        | some i =>
          obtain ⟨hp, hi⟩ := truthyStr_eq_some htr
          subst hp
          have hval : getUserProfile (some t) (ProfileApiOutcome.payload (some i) fn ln) =
              (⟨i, (truthyStr fn).getD "LinkedIn", (truthyStr ln).getD "User", none⟩, true) := by
            simp [getUserProfile, he, htr]
          rw [hval]
          exact ⟨hi, Or.inr ⟨i, fn, ln, rfl, rfl⟩⟩

theorem updateOAuthCredentials3_false_ok (s : AppSettings) (st : CredState) :
    ∃ st2, updateOAuthCredentials3 false s st = Except.ok st2 := by
  unfold updateOAuthCredentials3 updateSecret3
  cases truthyStr s.client_id <;> cases truthyStr s.client_secret <;>
    simp

/- Claim theorems. -/

/-- C8 counterexample: the claim asserts that with expiresInSeconds 3600,
issuedAt T0 and the default skew of 60, isExpired is false at T0 + 3599; the
specified formula issuedAt + expiresInSeconds <= now + skewSeconds makes it
true there (3600 <= 3599 + 60). -/
theorem isExpired_scenario_cex : isExpired ⟨0, some 3600⟩ 3599 60 = true := by decide

/-- C8 (amended): isExpired is true iff issuedAt + expiresInSeconds is at most
now + skewSeconds, and false when expiresInSeconds is absent; with the default
skew of 60 the 3600-second scenario flips at T0 + 3540, so it is false at
T0 + 3539 and true at T0 + 3541 and T0 + 3601; the instants T0 + 3599 and
T0 + 3601 of the original scenario witness the threshold only for skew 0. -/
theorem isExpired_formula (issuedAt e now skew : Nat) :
    (isExpired ⟨issuedAt, some e⟩ now skew = decide (issuedAt + e ≤ now + skew)) ∧
    (isExpired ⟨issuedAt, none⟩ now skew = false) ∧
    (isExpired ⟨issuedAt, some 3600⟩ (issuedAt + 3539) 60 = false) ∧
    (isExpired ⟨issuedAt, some 3600⟩ (issuedAt + 3541) 60 = true) ∧
    (isExpired ⟨issuedAt, some 3600⟩ (issuedAt + 3601) 60 = true) ∧
    (isExpired ⟨issuedAt, some 3600⟩ (issuedAt + 3599) 0 = false) ∧
    (isExpired ⟨issuedAt, some 3600⟩ (issuedAt + 3601) 0 = true) := by
  refine ⟨rfl, rfl, ?_, ?_, ?_, ?_, ?_⟩ <;>
    · simp only [isExpired, decide_eq_true_eq, decide_eq_false_iff_not]
      omega

/-- C6: getTokenByCode response handling: a non-success HTTP status fails with
the token-exchange error carrying both the status code and the raw body; a
successful response whose parsed body lacks a (truthy) access token fails with
the missing-access-token error; a token is returned only when the parsed body
carried a non-empty access token, which the token then holds. -/
theorem handleTokenResponse_error_classification
    (parseJson : String → Option ParsedTokenResponse) (resp : HttpTextResponse) :
    (resp.ok = false →
      handleTokenResponse parseJson resp =
        Except.error (ClientError.tokenExchangeFailed resp.status resp.text)) ∧
    (∀ tr, resp.ok = true → parseJson resp.text = some tr →
      truthyStr tr.access_token = none →
      handleTokenResponse parseJson resp = Except.error ClientError.missingAccessToken) ∧
    (∀ tok, handleTokenResponse parseJson resp = Except.ok tok →
      ∃ tr, parseJson resp.text = some tr ∧
        truthyStr tr.access_token = some tok.access_token ∧ tok.access_token ≠ "") := by
  refine ⟨?_, ?_, ?_⟩
  · intro h
    simp [handleTokenResponse, h]
  · intro tr hok hp htr
    simp [handleTokenResponse, hok, hp, htr]
  · intro tok h
    cases hok : resp.ok with
    | false => simp [handleTokenResponse, hok] at h
    | true =>
      cases hp : parseJson resp.text with
      | none => simp [handleTokenResponse, hok, hp] at h
      | some tr =>
        cases htr : truthyStr tr.access_token with
        | none => simp [handleTokenResponse, hok, hp, htr] at h
        | some a =>
          have hcomp : handleTokenResponse parseJson resp =
              Except.ok ⟨a, tr.refresh_token, tr.token_type, tr.expires_in, tr.id_token⟩ := by
            simp [handleTokenResponse, hok, hp, htr]
          rw [hcomp] at h
          have htok : tok = ⟨a, tr.refresh_token, tr.token_type, tr.expires_in, tr.id_token⟩ :=
            (Except.ok.inj h).symm
          obtain ⟨-, hane⟩ := truthyStr_eq_some htr
          subst htok
          exact ⟨tr, rfl, htr, hane⟩

/-- C6 witness: a concrete 400 response with body text is classified as a
token-exchange failure carrying that status and body. -/
theorem handleTokenResponse_error_classification_witness :
    handleTokenResponse (fun _ => none) ⟨false, 400, "bad_request_body"⟩ =
      Except.error (ClientError.tokenExchangeFailed 400 "bad_request_body") :=
  (handleTokenResponse_error_classification (fun _ => none)
    ⟨false, 400, "bad_request_body"⟩).1 rfl

/-- C7 counterexample: from the object with the single numeric field n = 5 no
string code can be extracted, yet getTokenByCode does not fail with the
invalid-code error: the object is JSON-serialized, the serialization passes
validation, and the token endpoint is contacted - the overall result is the
endpoint response classification, not the invalid-code error. -/
theorem getTokenByCode_stringify_fallback_cex :
    validateCodeStr (getCodeStr (fun _ => none) (CodeInput.obj [("n", JsField.fnum 5)])) =
      Except.ok "\x7b\"n\":5\x7d" ∧
    getTokenByCode (fun _ => none) (fun _ => none)
        (CodeInput.obj [("n", JsField.fnum 5)]) ⟨false, 400, "bad_code"⟩ =
      Except.error (ClientError.tokenExchangeFailed 400 "bad_code") := by
  constructor
  · rfl
  · rfl

/-- C7 (amended): a string input is used directly; an object with a truthy
string code field is unwrapped to it; otherwise a truthy string url field is
unwrapped through the URL code parameter when one is found; an object with no
string field at all is JSON-serialized and that text is used as the code (the
endpoint is then contacted); a nullish input becomes the empty string; and the
strings rejected before any network contact are exactly the empty string, the
text undefined and the text [object Object]. -/
theorem getTokenByCode_extraction_behavior (urlCodeParam : String → Option String)
    (s c u extracted : String) (fields : List (String × JsField)) :
    (getCodeStr urlCodeParam (CodeInput.str s) = s) ∧
    (objCodeField fields = some c → getCodeStr urlCodeParam (CodeInput.obj fields) = c) ∧
    (objCodeField fields = none → objUrlField fields = some u →
      urlCodeParam u = some extracted →
      getCodeStr urlCodeParam (CodeInput.obj fields) = extracted) ∧
    (objCodeField fields = none → objUrlField fields = none →
      firstStringField fields = none →
      getCodeStr urlCodeParam (CodeInput.obj fields) = jsonStringifyObj fields) ∧
    (getCodeStr urlCodeParam CodeInput.nullish = "") ∧
    (validateCodeStr "" = Except.error ClientError.invalidAuthorizationCode) ∧
    (validateCodeStr "undefined" = Except.error ClientError.invalidAuthorizationCode) ∧
    (validateCodeStr "[object Object]" = Except.error ClientError.invalidAuthorizationCode) ∧
    (s ≠ "" → s ≠ "undefined" → s ≠ "[object Object]" →
      validateCodeStr s = Except.ok s) := by
  refine ⟨rfl, ?_, ?_, ?_, rfl, rfl, rfl, rfl, ?_⟩
  · intro h
    simp [getCodeStr, h]
  · intro h1 h2 h3
    simp [getCodeStr, h1, h2, h3]
  · intro h1 h2 h3
    simp [getCodeStr, h1, h2, h3]
  · intro h1 h2 h3
    simp [validateCodeStr, h1, h2, h3]

/-- C7 witness: an object carrying a string code field is unwrapped to that
string. -/
theorem getTokenByCode_extraction_behavior_witness :
    getCodeStr (fun _ => none) (CodeInput.obj [("code", JsField.fstr "abc123")]) =
      "abc123" :=
  (getTokenByCode_extraction_behavior (fun _ => none) "x" "abc123" "y" "z"
    [("code", JsField.fstr "abc123")]).2.1 rfl

/-- C1 counterexample: on a first-attempt 401 with a successful refresh, the
primary client does not re-issue the original request: in an environment where
the retried request would return a 200 response with the profile payload (the
response the spec model returns to the caller), onHandleResult instead returns
the synthetic 200 response carrying the refreshed marker. -/
theorem onHandleResult_401_synthetic_response_cex :
    (onHandleResult true (some ⟨false, 401, RespData.raw "expired", []⟩)).1 =
      Except.ok ⟨true, 200, RespData.refreshedMarker, []⟩ ∧
    (onHandleResult true (some ⟨false, 401, RespData.raw "expired", []⟩)).1 ≠
      Except.ok ⟨true, 200, RespData.raw "retried-profile", []⟩ ∧
    onHandle401Spec true ⟨true, 200, RespData.raw "retried-profile", []⟩
        ⟨false, 401, RespData.raw "expired", []⟩ =
      Except.ok ⟨true, 200, RespData.raw "retried-profile", []⟩ := by
  refine ⟨rfl, ?_, rfl⟩
  intro h
  have hd := congrArg ApiResponse.data (Except.ok.inj h)
  exact absurd hd (by decide)

/-- C1 (amended): on a first-attempt 401 the primary client emits
refresh_token exactly once and then, instead of retrying the original request,
returns a synthetic 200 response whose data is the refreshed marker (telling
the caller to retry) and whose headers are the original headers; when the
refresh fails the call fails with the refresh-failed error; the client itself
never issues a second attempt, so no authentication-expired path exists in it. -/
theorem onHandleResult_401_refresh_once_synthetic (refreshSucceeds : Bool)
    (d : RespData) (hs : List (String × String)) :
    onHandleResult refreshSucceeds (some ⟨false, 401, d, hs⟩) =
      ((if refreshSucceeds then
          Except.ok ⟨true, 200, RespData.refreshedMarker, hs⟩
        else Except.error ClientError.refreshFailed), 1) := by
  cases refreshSucceeds <;> rfl

/-- C2 counterexample: with a token that has no id_token and a REST email
lookup failing with HTTP 500, neither path yields an email, and getUserEmail
returns the fabricated placeholder instead of failing (its type is a plain
string: the operation has no failure outcome at all). -/
theorem getUserEmail_returns_placeholder_cex :
    getUserEmail (fun _ => none) (some ⟨"tok", none, none, none, none⟩)
      (EmailApiOutcome.httpError 500) = "unknown@email.com" := by decide

/-- C2 (amended): whenever the identity-token claim path yields no email and
the REST lookup path yields no email, getUserEmail of the primary client
returns the hardcoded placeholder unknown@email.com; it never fails with an
email-unavailable error (it cannot fail at all). -/
theorem getUserEmail_placeholder_when_no_email (pj : String → Option JwtPayload)
    (token : Option OAuth2Token) (api : EmailApiOutcome)
    (h1 : ∀ t, token = some t → jwtEmail pj t = none)
    (h2 : apiEmailOf api = none) :
    getUserEmail pj token api = "unknown@email.com" := by
  cases token with
  | none => rfl
  | some t =>
    have hj := h1 t rfl
    have hv : getUserEmailViaApi t api = "unknown@email.com" := by
      by_cases he : t.access_token = ""
      · simp [getUserEmailViaApi, he]
      · cases api with
        | payload elems =>
          simp only [apiEmailOf] at h2
          cases elems with
          | none => simp [getUserEmailViaApi, he]
          | some l =>
            cases l with
            | nil => simp [getUserEmailViaApi, he]
            | cons e rest =>
              cases hh : e.handleTilde.bind truthyStr with
              | some m => simp [firstEmailOf, hh] at h2
              | none =>
                simp only [firstEmailOf, hh] at h2
                simp [getUserEmailViaApi, he, hh, h2]
        | httpError s => simp [getUserEmailViaApi, he]
        | parseFailure => simp [getUserEmailViaApi, he]
        | nullData => simp [getUserEmailViaApi, he]
        | networkFailure => simp [getUserEmailViaApi, he]
    cases hidt : t.id_token with
    | none => simp [getUserEmail, hidt, hv]
    | some idt =>
      cases hp : pj idt with
      | none => simp [getUserEmail, hidt, hp, hv]
      | some jwt =>
        simp only [jwtEmail, hidt, hp] at hj
        simp [getUserEmail, hidt, hp, hj, hv]

/-- C2 witness: a token without id_token and an email response with an empty
elements array make both paths fail, and the placeholder is returned. -/
theorem getUserEmail_placeholder_when_no_email_witness :
    getUserEmail (fun _ => none) (some ⟨"tok", none, none, none, none⟩)
      (EmailApiOutcome.payload (some [])) = "unknown@email.com" :=
  getUserEmail_placeholder_when_no_email (fun _ => none)
    (some ⟨"tok", none, none, none, none⟩) (EmailApiOutcome.payload (some []))
    (fun t h => by cases h; rfl) rfl

/-- C3 counterexample: with no token available, both the identity-claims path
(which the primary client does not even implement) and the REST path fail to
produce an id, yet the operation does not fail with a profile-unavailable
error: it returns the synthesized placeholder profile with id
unknown-profile - exactly the value the claim says is never returned. -/
theorem getUserProfile_placeholder_cex :
    (getUserProfile none (ProfileApiOutcome.payload none none none)).1 =
      ⟨"unknown-profile", "LinkedIn", "User", none⟩ := by decide

/-- C3 (amended): every result of the primary getUserProfile carries a
non-empty id, but when no path produces a real id the operation is not a hard
failure: it returns a synthesized placeholder profile whose id is
unknown-profile, parse-error, missing-id, api-error, or error- followed by the
HTTP status. -/
theorem getUserProfile_placeholder_when_no_id (token : Option OAuth2Token)
    (api : ProfileApiOutcome)
    (h : ∀ pid fn ln, api = ProfileApiOutcome.payload pid fn ln → truthyStr pid = none) :
    placeholderId (getUserProfile token api).1.id ∧
      (getUserProfile token api).1.id ≠ "" := by
  obtain ⟨hne, hcase⟩ := getUserProfile_id_characterization token api
  refine ⟨?_, hne⟩
  cases hcase with
  | inl hp => exact hp
  | inr hr =>
    obtain ⟨pid, fn, ln, hapi, hid⟩ := hr
    have hnone := h (some pid) fn ln hapi
    have := truthyStr_some_eq_none hnone
    rw [hid, this] at hne
    exact absurd rfl hne

/-- C3 witness: a null response body yields the missing-id placeholder. -/
theorem getUserProfile_placeholder_when_no_id_witness :
    placeholderId (getUserProfile none ProfileApiOutcome.nullData).1.id ∧
      (getUserProfile none ProfileApiOutcome.nullData).1.id ≠ "" :=
  getUserProfile_placeholder_when_no_id none ProfileApiOutcome.nullData
    (fun pid fn ln h => by simp at h)

/-- C10: the primary getUserProfile is total - its type has no failure
outcome - and every execution returns a profile whose id is a non-empty
string: either the real id of the REST payload or one of the placeholder
values unknown-profile, parse-error, missing-id, api-error, error- followed by
the status; getUserId likewise always returns a non-empty string and never
throws. -/
theorem getUserProfile_total_nonempty_id (token : Option OAuth2Token)
    (api : ProfileApiOutcome) :
    (getUserProfile token api).1.id ≠ "" ∧
    getUserId token api ≠ "" ∧
    (placeholderId (getUserProfile token api).1.id ∨
      ∃ pid fn ln, api = ProfileApiOutcome.payload (some pid) fn ln ∧
        (getUserProfile token api).1.id = pid) := by
  obtain ⟨h1, h2⟩ := getUserProfile_id_characterization token api
  refine ⟨h1, ?_, h2⟩
  have hg : getUserId token api = (getUserProfile token api).1.id := by
    simp [getUserId, h1]
  rw [hg]
  exact h1

/-- C5 counterexample: the primary client ignores the identity token: with a
token whose id_token decodes (under the given oracle) to a payload with the
usable subject u123, getUserProfile still issues the REST profile call and
returns the REST id, while the draft client of part_013 on the same inputs
derives the profile from the claims and issues no REST call. -/
theorem getUserProfile_ignores_id_token_cex :
    ((fun s => if s = "hdr.pay.sig" then
        some (⟨none, none, some "Ann", some "Lee", none, some "u123"⟩ : JwtPayload)
      else none) "hdr.pay.sig").bind (fun j => truthyStr j.sub) = some "u123" ∧
    (getUserProfile (some ⟨"tok", none, none, none, some "hdr.pay.sig"⟩)
        (ProfileApiOutcome.payload (some "rest-id") none none)).2 = true ∧
    (getUserProfile (some ⟨"tok", none, none, none, some "hdr.pay.sig"⟩)
        (ProfileApiOutcome.payload (some "rest-id") none none)).1.id = "rest-id" ∧
    getUserProfile13
        (fun s => if s = "hdr.pay.sig" then
          some (⟨none, none, some "Ann", some "Lee", none, some "u123"⟩ : JwtPayload)
        else none)
        (some ⟨"tok", none, none, none, some "hdr.pay.sig"⟩)
        (RestProfileOutcome.success ⟨"rest-id", "", "", none⟩) =
      (Except.ok ⟨"u123", "Ann", "Lee", none⟩, false) := by
  refine ⟨rfl, rfl, rfl, rfl⟩

/-- C5 (amended): the identity-token preference exists only in the draft
client of part_013: there, the result is derived from the decoded claims with
no REST call exactly when the token carries an id_token decoding to a usable
(truthy) subject id, and the REST lookup runs otherwise; the primary client
issues the REST profile call whenever a usable access token is present,
regardless of the identity token. -/
theorem profile_identity_preference_draft_only (pj : String → Option JwtPayload)
    (token : Option OAuth2Token) (rest : RestProfileOutcome)
    (t : OAuth2Token) (api : ProfileApiOutcome) :
    (getUserProfile13 pj token rest =
      (match claimsProfileOf pj token with
       | some p => (Except.ok p, false)
       | none => restProfileResult rest)) ∧
    ((getUserProfile (some t) api).2 = !(t.access_token == "")) := by
  constructor
  · cases token with
    | none => rfl
    | some t0 =>
      cases h1 : t0.id_token with
      | none => simp [getUserProfile13, claimsProfileOf, h1]
      | some idt =>
        cases h2 : pj idt with
        | none => simp [getUserProfile13, claimsProfileOf, h1, h2]
        | some jwt =>
          cases h3 : truthyStr jwt.sub with
          | none => simp [getUserProfile13, claimsProfileOf, h1, h2, h3]
          | some sub => simp [getUserProfile13, claimsProfileOf, h1, h2, h3]
  · by_cases he : t.access_token = ""
    · simp [getUserProfile, he]
    · cases api with
      | payload pid fn ln =>
        cases htr : truthyStr pid <;> simp [getUserProfile, he, htr]
      | httpError s => simp [getUserProfile, he]
      | parseFailure => simp [getUserProfile, he]
      | nullData => simp [getUserProfile, he]
      | networkFailure m => simp [getUserProfile, he]

/-- C4 counterexample: postMessage performs no validation of the visibility
argument: called with INVALID_VALUE it does not fail with an invalid-argument
error but sends the share request with that value embedded verbatim, while the
spec model rejects the same call before any network activity. -/
theorem postMessage_invalid_visibility_cex :
    postMessage (some ⟨"tok", none, none, none, none⟩)
        (ProfileApiOutcome.payload (some "u1") none none) "hello" "INVALID_VALUE" =
      ⟨"/ugcPosts", "urn:li:person:u1", "PUBLISHED", "hello", "NONE", "INVALID_VALUE"⟩ ∧
    createPostSpec "u1" "hello" "INVALID_VALUE" =
      Except.error ClientError.invalidArgument := by
  refine ⟨rfl, ?_⟩
  simp [createPostSpec]

/-- C4 (amended): neither postMessage of the primary client nor
postTextUpdate of LinkedInClient validates the visibility value at runtime:
every call sends the ugcPosts request, with the visibility argument embedded
verbatim (postTextUpdate defaulting an absent value to CONNECTIONS); no
invalid-argument rejection exists. -/
theorem postMessage_no_visibility_validation (token : Option OAuth2Token)
    (api : ProfileApiOutcome) (msg v userId : String) (options : PostOptions) :
    ((postMessage token api msg v).memberNetworkVisibility = v) ∧
    ((postMessage token api msg v).path = "/ugcPosts") ∧
    ((postTextUpdateBody userId options).memberNetworkVisibility =
      options.visibility.getD "CONNECTIONS") ∧
    ((postTextUpdateBody userId options).path = "/ugcPosts") := by
  exact ⟨rfl, rfl, rfl, rfl⟩

/-- C9 counterexample: with both credential settings absent, the final
initialization path completes normally: updateOAuthCredentials is called with
throwErrors false, nothing is thrown, and onOAuth2Init succeeds with both
static credential fields still empty - the app continues with the credentials
unset instead of failing at startup. -/
theorem onOAuth2Init_continues_without_credentials_cex :
    updateOAuthCredentials3 false ⟨none, none⟩ ⟨"", ""⟩ = Except.ok ⟨"", ""⟩ ∧
    onOAuth2Init ⟨none, none⟩ ⟨"", ""⟩ = Except.ok ⟨"", ""⟩ := by
  refine ⟨rfl, rfl⟩

/-- C9 (amended): only the first app draft treats missing credentials as fatal
at startup: its updateOAuthCredentials throws when the client id or client
secret setting is absent or falsy; the final draft calls
updateOAuthCredentials with throwErrors false from onOAuth2Init, which
therefore always completes successfully, continuing with whatever credential
state is left. -/
theorem credentials_startup_behavior (s : AppSettings) (st : CredState)
    (h : truthyStr s.client_id = none ∨ truthyStr s.client_secret = none) :
    (∃ e, updateOAuthCredentials1 s st = Except.error e) ∧
    (∃ st2, updateOAuthCredentials3 false s st = Except.ok st2 ∧
      onOAuth2Init s st = Except.ok st2) := by
  constructor
  · cases h with
    | inl hid => exact ⟨ConfigError.missingClientId, by simp [updateOAuthCredentials1, hid]⟩
    | inr hsec =>
      cases hcid : truthyStr s.client_id with
      | none =>
        exact ⟨ConfigError.missingClientId, by simp [updateOAuthCredentials1, hcid]⟩
      | some cid =>
        exact ⟨ConfigError.missingClientSecret,
          by simp [updateOAuthCredentials1, hcid, hsec]⟩
  · obtain ⟨st2, hst2⟩ := updateOAuthCredentials3_false_ok s st
    exact ⟨st2, hst2, by simp [onOAuth2Init, hst2]⟩

/-- C9 witness: both settings absent, starting from empty credential state. -/
theorem credentials_startup_behavior_witness :
    (∃ e, updateOAuthCredentials1 ⟨none, none⟩ ⟨"", ""⟩ = Except.error e) ∧
    (∃ st2, updateOAuthCredentials3 false ⟨none, none⟩ ⟨"", ""⟩ = Except.ok st2 ∧
      onOAuth2Init ⟨none, none⟩ ⟨"", ""⟩ = Except.ok st2) :=
  credentials_startup_behavior ⟨none, none⟩ ⟨"", ""⟩ (Or.inl rfl)
